import Mathlib

/-!
Verification of the training-cycle control loop and stopping-criterion
policy of the teacher-student training orchestrator
(`src/core/orchestrator.py`, class `TrainingSystemOrchestrator`).

The embedding is shallow: Python dictionaries become structures, the
sequential `async` control flow becomes explicit state passing, and a
call to an external collaborator (question source, answerer, evaluator,
corrector, result sink) that may raise becomes a value of `Except E α`.
Python `float` arithmetic on these small counters is modelled with `ℚ`.
-/

/-- A question record as produced by `TeacherAIController.generate_questions`.
Only the fields the orchestrator core reads are kept. -/
structure Question where
  id : String
  text : String
  deriving Repr, DecidableEq

/-- An evaluation record as returned by `TeacherAIController.evaluate_response`.
The orchestrator reads `is_correct` and `feedback`; `score` is carried along. -/
structure Evaluation where
  is_correct : Bool
  score : ℚ
  feedback : String
  deriving Repr, DecidableEq

/-- The `performance_metrics` dictionary computed by
`TrainingSystemOrchestrator._calculate_metrics`. -/
structure PerformanceMetrics where
  accuracy : ℚ
  improvement_rate : ℚ
  learning_efficiency : ℚ
  deriving Repr, DecidableEq

/-- The `cycle_results` dictionary built by
`TrainingSystemOrchestrator.execute_training_cycle`. -/
structure CycleResult where
  cycle_number : Nat
  questions_processed : Nat
  correct_answers : Nat
  improvements_made : Nat
  performance_metrics : PerformanceMetrics
  deriving Repr, DecidableEq

/-- `self.training_state` of `TrainingSystemOrchestrator`.  The source
initialises the first four keys in `__init__`; `recent_improvements` is read
by `_should_stop_training` via `.get('recent_improvements', [])` and is never
assigned anywhere, so an absent key is observationally the empty list, which
is how a fresh state is modelled here. -/
structure TrainingState where
  current_cycle : Nat
  total_questions_processed : Nat
  improvements_detected : Nat
  training_active : Bool
  recent_improvements : List ℚ
  deriving Repr, DecidableEq

/-- The training state set up by `TrainingSystemOrchestrator.__init__`. -/
def initialTrainingState : TrainingState :=
  { current_cycle := 0
  , total_questions_processed := 0
  , improvements_detected := 0
  , training_active := false
  , recent_improvements := [] }

/-- The `training` section of the configuration file, as read by the
orchestrator (`questions_per_cycle`, `max_cycles`, `min_accuracy_threshold`,
`max_plateau_cycles`). -/
structure TrainingConfig where
  questions_per_cycle : Nat
  max_cycles : Nat
  min_accuracy_threshold : ℚ
  max_plateau_cycles : Nat
  deriving Repr, DecidableEq

/-- `TrainingSystemOrchestrator._calculate_metrics`: accuracy and
improvement_rate are guarded by `questions_processed > 0`, learning
efficiency divides by `max(1, total_q - correct)`.  Python's
`max(1, total_q - correct)` equals `max 1 (total_q - correct)` on `Nat`
because a negative Python difference and a truncated `Nat` difference are
both clamped to 1 by the `max`. -/
def calculateMetrics (questions_processed correct_answers improvements_made : Nat) :
    PerformanceMetrics :=
  { accuracy :=
      if 0 < questions_processed then
        (correct_answers : ℚ) / (questions_processed : ℚ)
      else 0
  , improvement_rate :=
      if 0 < questions_processed then
        (improvements_made : ℚ) / (questions_processed : ℚ)
      else 0
  , learning_efficiency :=
      (improvements_made : ℚ) / ((max 1 (questions_processed - correct_answers) : Nat) : ℚ) }

/-- The per-question collaborators called inside the loop of
`execute_training_cycle`: `self.student.generate_answer`,
`self.teacher.evaluate_response` and `self.student.apply_correction`.
Each call is an awaited external operation that may raise, hence `Except`. -/
structure Collaborators (E : Type) where
  generate_answer : Question → Except E String
  evaluate_response : Question → String → Except E Evaluation
  apply_correction : Question → String → String → Except E Bool

/-- The `for question in questions` loop of `execute_training_cycle`
(orchestrator.py lines 102-121), threading the three counters
`(questions_processed, correct_answers, improvements_made)`.  An exception
from any collaborator propagates out (the surrounding `try` re-raises). -/
def processQuestions {E : Type} (env : Collaborators E) :
    List Question → Nat → Nat → Nat → Except E (Nat × Nat × Nat)
  | [], p, c, i => .ok (p, c, i)
  | q :: rest, p, c, i =>
    match env.generate_answer q with
    | .error e => .error e
    | .ok student_answer =>
      match env.evaluate_response q student_answer with
      | .error e => .error e
      | .ok evaluation =>
        if evaluation.is_correct then
          processQuestions env rest (p + 1) (c + 1) i
        else
          match env.apply_correction q student_answer evaluation.feedback with
          | .error e => .error e
          | .ok improvement =>
            if improvement then
              processQuestions env rest (p + 1) c (i + 1)
            else
              processQuestions env rest (p + 1) c i

/-- The same per-question loop, instrumented with the list of questions that
were handed to `apply_correction`, so that Corrector invocations are
observable in the result.  The counters move exactly as in
`processQuestions`. -/
def processQuestionsCalls {E : Type} (env : Collaborators E) :
    List Question → Nat → Nat → Nat → List Question →
    Except E (Nat × Nat × Nat × List Question)
  | [], p, c, i, calls => .ok (p, c, i, calls)
  | q :: rest, p, c, i, calls =>
    match env.generate_answer q with
    | .error e => .error e
    | .ok student_answer =>
      match env.evaluate_response q student_answer with
      | .error e => .error e
      | .ok evaluation =>
        if evaluation.is_correct then
          processQuestionsCalls env rest (p + 1) (c + 1) i calls
        else
          match env.apply_correction q student_answer evaluation.feedback with
          | .error e => .error e
          | .ok improvement =>
            if improvement then
              processQuestionsCalls env rest (p + 1) c (i + 1) (calls ++ [q])
            else
              processQuestionsCalls env rest (p + 1) c i (calls ++ [q])

/-- `TrainingSystemOrchestrator.execute_training_cycle`.  `questionsReply` is
the outcome of the `self.teacher.generate_questions` call for this cycle.
On success the cycle result and the updated `training_state` are returned;
any exception raised inside the body is logged and re-raised by the source
(`except ... raise`), leaving `training_state` unchanged, which shows up
here as an `Except.error` with no new state. -/
def executeTrainingCycle {E : Type} (questionsReply : Except E (List Question))
    (env : Collaborators E) (st : TrainingState) :
    Except E (CycleResult × TrainingState) :=
  match questionsReply with
  | .error e => .error e
  | .ok questions =>
    match processQuestions env questions 0 0 0 with
    | .error e => .error e
    | .ok (p, c, i) =>
      let cycle_results : CycleResult :=
        { cycle_number := st.current_cycle
        , questions_processed := p
        , correct_answers := c
        , improvements_made := i
        , performance_metrics := calculateMetrics p c i }
      let st' : TrainingState :=
        { st with
          current_cycle := st.current_cycle + 1
        , total_questions_processed := st.total_questions_processed + p
        , improvements_detected := st.improvements_detected + i }
      .ok (cycle_results, st')

/-- The reason `_should_stop_training` returned `True`: which of its two
sequential checks fired first. -/
inductive StopReason where
  | target_reached
  | plateau
  deriving Repr, DecidableEq

/-- `TrainingSystemOrchestrator._should_stop_training`, refined to report
which branch fired (the source logs a distinct message per branch and
returns `True`; `none` is its `return False`).  The plateau branch divides
by `len(recent_improvements)`; when `max_plateau_cycles ≥ 1` the guard
forces a nonempty list so the division is the ordinary one (the source
would raise `ZeroDivisionError` only in the untypical configuration
`max_plateau_cycles = 0` with an empty window). -/
def shouldStopReason (config : TrainingConfig) (st : TrainingState)
    (cycle_result : CycleResult) : Option StopReason :=
  if config.min_accuracy_threshold ≤ cycle_result.performance_metrics.accuracy then
    some .target_reached
  else if config.max_plateau_cycles ≤ st.recent_improvements.length ∧
      st.recent_improvements.sum / (st.recent_improvements.length : ℚ) < 1 / 100 then
    some .plateau
  else
    none

/-- The boolean returned by `_should_stop_training`. -/
def shouldStopTraining (config : TrainingConfig) (st : TrainingState)
    (cycle_result : CycleResult) : Bool :=
  (shouldStopReason config st cycle_result).isSome

/-- `max_cycles = max_cycles or self.config['training']['max_cycles']` at the
top of `run_full_training`: Python `or` falls back to the configured value
when the argument is `None` **or** `0` (both are falsy). -/
def resolveMaxCycles (max_cycles : Option Nat) (configMax : Nat) : Nat :=
  match max_cycles with
  | none => configMax
  | some n => if n = 0 then configMax else n

/-- The training results dictionary built by `run_full_training`.  `S` is
the type of the opaque evaluation snapshots returned by the model
evaluator (`run_baseline_evaluation` / `run_final_evaluation`). -/
structure TrainingResults (S : Type) where
  cycles_completed : Nat
  learning_progression : List CycleResult
  baseline_performance : Option S
  final_evaluation : Option S
  deriving Repr, DecidableEq

/-- The external collaborators of `run_full_training`.  The question source
may answer differently on each call; since `execute_training_cycle` calls it
exactly once per cycle, its successive replies are determinised by the cycle
number at the time of the call.  The model evaluator and the result sink may
raise exceptions, which `run_full_training` does not catch. -/
structure RunEnv (E S : Type) where
  generate_questions : Nat → Except E (List Question)
  collab : Collaborators E
  run_baseline_evaluation : Except E S
  run_final_evaluation : S → Except E S
  save_training_results : TrainingResults S → Except E Unit

/-- The `for cycle in range(max_cycles)` loop of `run_full_training`
(orchestrator.py lines 168-178).  The fuel argument is the number of
remaining iterations.  Each iteration checks the active flag, runs one
training cycle, appends its result, bumps `cycles_completed` and consults
`_should_stop_training`.  A propagating exception carries the state as of
the raise (Python state mutations are not rolled back). -/
def trainingLoop {E S : Type} (env : RunEnv E S) (config : TrainingConfig) :
    Nat → TrainingState → TrainingResults S →
    Except E (TrainingResults S) × TrainingState
  | 0, st, tr => (.ok tr, st)
  | fuel + 1, st, tr =>
    if st.training_active = false then (.ok tr, st)
    else
      match executeTrainingCycle (env.generate_questions st.current_cycle) env.collab st with
      | .error e => (.error e, st)
      | .ok (cycle_result, st') =>
        let tr' : TrainingResults S :=
          { tr with
            learning_progression := tr.learning_progression ++ [cycle_result]
          , cycles_completed := tr.cycles_completed + 1 }
        if shouldStopTraining config st' cycle_result then (.ok tr', st')
        else trainingLoop env config fuel st' tr'

/-- The `try` block of `run_full_training` (orchestrator.py lines 162-188):
baseline evaluation, the cycle loop, the final evaluation and the result
sink, any of which may raise.  `st₁` is the state after the active flag was
set. -/
def runFullTrainingBody {E S : Type} (env : RunEnv E S) (config : TrainingConfig)
    (maxCycles : Nat) (st₁ : TrainingState) :
    Except E (TrainingResults S) × TrainingState :=
  match env.run_baseline_evaluation with
  | .error e => (.error e, st₁)
  | .ok baseline =>
    match trainingLoop env config maxCycles st₁
        { cycles_completed := 0
        , learning_progression := []
        , baseline_performance := some baseline
        , final_evaluation := none } with
    | (.error e, st₂) => (.error e, st₂)
    | (.ok tr, st₂) =>
      match env.run_final_evaluation baseline with
      | .error e => (.error e, st₂)
      | .ok final_eval =>
        let tr' : TrainingResults S := { tr with final_evaluation := some final_eval }
        match env.save_training_results tr' with
        | .error e => (.error e, st₂)
        | .ok _ => (.ok tr', st₂)

/-- `TrainingSystemOrchestrator.run_full_training`.  Resolves the cycle
budget by truthiness, sets the active flag and runs the `try` block; the
`finally` clause clears `training_active` on every exit path, normal or
exceptional, before the result (or the re-raised exception) reaches the
caller. -/
def runFullTraining {E S : Type} (env : RunEnv E S) (config : TrainingConfig)
    (max_cycles : Option Nat) (st₀ : TrainingState) :
    Except E (TrainingResults S) × TrainingState :=
  let body :=
    runFullTrainingBody env config (resolveMaxCycles max_cycles config.max_cycles)
      { st₀ with training_active := true }
  (body.1, { body.2 with training_active := false })

/-- The fields of the JSON object the grading model returns, as read by
`TeacherAIController.evaluate_response` (student_ai.py lines 124-134). -/
structure EvalData where
  is_correct : Bool
  score : ℚ
  feedback : String
  deriving Repr, DecidableEq

/-- `TeacherAIController.evaluate_response` (student_ai.py lines 109-148), as
a function of the outcome of its internal API call and JSON parse: the
`except` clause turns any failure into a degraded evaluation with
`is_correct = False` and `score = 0.0` whose feedback carries the error
text, so this collaborator returns normally instead of raising. -/
def evaluateResponse (apiReply : Except String EvalData) : Evaluation :=
  match apiReply with
  | .ok d => { is_correct := d.is_correct, score := d.score, feedback := d.feedback }
  | .error e =>
    { is_correct := false, score := 0, feedback := "Error en evaluacion: " ++ e }

/-- The n-th question of the concrete end-to-end scenario. -/
def scenarioQuestion (n : Nat) : Question :=
  { id := toString n, text := "question " ++ toString n }

/-- The five questions the Question Source returns in the end-to-end
scenario. -/
def scenarioQuestions : List Question :=
  [scenarioQuestion 1, scenarioQuestion 2, scenarioQuestion 3,
   scenarioQuestion 4, scenarioQuestion 5]

/-- The collaborators of the end-to-end scenario: the Answerer returns
arbitrary text, the Evaluator marks questions 1 and 3 correct and 2, 4, 5
incorrect with feedback, and the Corrector reports an applied adjustment for
questions 2 and 4 and none for question 5 (a failing Corrector call is
reported as `False` by the collaborator, per its interface contract). -/
def scenarioEnv : Collaborators String :=
  { generate_answer := fun q => .ok ("answer to " ++ q.id)
  , evaluate_response := fun q _ =>
      if q.id = "1" ∨ q.id = "3" then
        .ok { is_correct := true, score := 1, feedback := "correct" }
      else
        .ok { is_correct := false, score := 0, feedback := "wrong, because" }
  , apply_correction := fun q _ _ =>
      if q.id = "5" then .ok false else .ok true }

/-- A single-question batch whose Evaluator call raises, for exercising the
exception path of `execute_training_cycle`. -/
def failingEnv : Collaborators String :=
  { generate_answer := fun _ => .ok "some answer"
  , evaluate_response := fun _ _ => .error "API failure"
  , apply_correction := fun _ _ _ => .ok true }

/-- Collaborators that always return normally, used to instantiate
hypotheses about non-raising collaborators at a concrete input. -/
def totalEnv : Collaborators String :=
  { generate_answer := fun _ => .ok "an answer"
  , evaluate_response := fun _ _ =>
      .ok { is_correct := false, score := 0, feedback := "feedback" }
  , apply_correction := fun _ _ _ => .ok true }

/-- A configuration with minimum-accuracy threshold 0.90, plateau window
size 3 and a cycle budget of 10, used for concrete checks. -/
def demoConfig : TrainingConfig :=
  { questions_per_cycle := 5
  , max_cycles := 10
  , min_accuracy_threshold := 9/10
  , max_plateau_cycles := 3 }

/-- A fresh training state whose plateau window holds the given values. -/
def windowState (w : List ℚ) : TrainingState :=
  { initialTrainingState with recent_improvements := w }

/-- A cycle result with the given accuracy, for exercising the stopping
check. -/
def demoCycleResult (acc : ℚ) : CycleResult :=
  { cycle_number := 0
  , questions_processed := 5
  , correct_answers := 2
  , improvements_made := 2
  , performance_metrics :=
      { accuracy := acc, improvement_rate := 0, learning_efficiency := 0 } }

/-- The `CycleResult` of the five-question scenario cycle. -/
def scenarioCycleResult : CycleResult :=
  { cycle_number := 0
  , questions_processed := 5
  , correct_answers := 2
  , improvements_made := 2
  , performance_metrics := calculateMetrics 5 2 2 }

/-- The training state after the five-question scenario cycle. -/
def scenarioEndState : TrainingState :=
  { initialTrainingState with
    current_cycle := 1, total_questions_processed := 5, improvements_detected := 2 }

/-- A configuration whose accuracy target is unreachable (threshold 2 with
accuracy at most 1), so a concrete run exercises the full cycle budget. -/
def runConfig : TrainingConfig :=
  { questions_per_cycle := 5
  , max_cycles := 10
  , min_accuracy_threshold := 2
  , max_plateau_cycles := 3 }

/-- A concrete run environment: the question source returns empty batches
and every collaborator returns normally. -/
def demoRunEnv : RunEnv String Unit :=
  { generate_questions := fun _ => .ok []
  , collab := totalEnv
  , run_baseline_evaluation := .ok ()
  , run_final_evaluation := fun _ => .ok ()
  , save_training_results := fun _ => .ok () }

/-- The `CycleResult` of the k-th empty-batch cycle of `demoRunEnv`. -/
def demoCycle (k : Nat) : CycleResult :=
  { cycle_number := k
  , questions_processed := 0
  , correct_answers := 0
  , improvements_made := 0
  , performance_metrics := calculateMetrics 0 0 0 }

/-- The training results of a two-cycle run over `demoRunEnv`. -/
def demoTrainingResults : TrainingResults Unit :=
  { cycles_completed := 2
  , learning_progression := [demoCycle 0, demoCycle 1]
  , baseline_performance := some ()
  , final_evaluation := some () }

/-- The training state after a two-cycle run over `demoRunEnv`. -/
def demoFinalState : TrainingState :=
  { current_cycle := 2
  , total_questions_processed := 0
  , improvements_detected := 0
  , training_active := false
  , recent_improvements := [] }

/-- C3: the metrics computed from a cycle's counts follow the specified
formulas — accuracy and improvement rate are the ratios over processed
questions, or `0.0` for an empty cycle, and learning efficiency divides by
`max 1 (processed - correct)`; and the metrics stored in any `CycleResult`
produced by `execute_training_cycle` are exactly the pure recomputation
from that result's own counts, so recomputing them from an unchanged
`CycleResult` yields identical values. -/
theorem calculateMetrics_spec :
    (∀ p c i : Nat,
      (calculateMetrics p c i).accuracy = (if 0 < p then (c : ℚ) / (p : ℚ) else 0) ∧
      (calculateMetrics p c i).improvement_rate = (if 0 < p then (i : ℚ) / (p : ℚ) else 0) ∧
      (calculateMetrics p c i).learning_efficiency =
        (i : ℚ) / ((max 1 (p - c) : Nat) : ℚ)) ∧
    (∀ (E : Type) (r : Except E (List Question)) (env : Collaborators E)
        (st : TrainingState) (cr : CycleResult) (st' : TrainingState),
      executeTrainingCycle r env st = .ok (cr, st') →
      cr.performance_metrics =
        calculateMetrics cr.questions_processed cr.correct_answers cr.improvements_made) := by
  constructor
  · intro p c i
    exact ⟨rfl, rfl, rfl⟩
  · intro E r env st cr st' h
    unfold executeTrainingCycle at h
    cases r with
    | error e => exact absurd h (by simp)
    | ok questions =>
      simp only at h
      cases hp : processQuestions env questions 0 0 0 with
      | error e => rw [hp] at h; exact absurd h (by simp)
      | ok t =>
        obtain ⟨p, c, i⟩ := t
        rw [hp] at h
        simp only [Except.ok.injEq, Prod.mk.injEq] at h
        rw [← h.1]

/-- Witness for `calculateMetrics_spec` at the concrete five-question
scenario cycle. -/
theorem calculateMetrics_spec_witness :
    (executeTrainingCycle (.ok scenarioQuestions) scenarioEnv initialTrainingState =
        .ok ({ cycle_number := 0, questions_processed := 5, correct_answers := 2
             , improvements_made := 2, performance_metrics := calculateMetrics 5 2 2 },
             { initialTrainingState with
               current_cycle := 1, total_questions_processed := 5
             , improvements_detected := 2 })) ∧
    ({ cycle_number := 0, questions_processed := 5, correct_answers := 2
     , improvements_made := 2,
       performance_metrics := calculateMetrics 5 2 2 : CycleResult }).performance_metrics =
      calculateMetrics 5 2 2 :=
  ⟨rfl, calculateMetrics_spec.2 String (.ok scenarioQuestions) scenarioEnv
    initialTrainingState _ _ rfl⟩

/-- C4: `_should_stop_training` stops for target-reached exactly when the
just-completed cycle's accuracy is at least the configured
`min_accuracy_threshold`; the comparison is inclusive and this check is
made before the plateau check (when the threshold is met the reason is
target-reached whatever the plateau window holds).  Concretely, with
threshold 0.90 an accuracy of exactly 0.90 stops and 0.8999 does not. -/
theorem shouldStop_target_reached :
    (∀ (config : TrainingConfig) (st : TrainingState) (cr : CycleResult),
      shouldStopReason config st cr = some .target_reached ↔
        config.min_accuracy_threshold ≤ cr.performance_metrics.accuracy) ∧
    shouldStopTraining demoConfig initialTrainingState (demoCycleResult (90/100)) = true ∧
    shouldStopTraining demoConfig initialTrainingState (demoCycleResult (8999/10000)) = false := by
  refine ⟨?_, ?_, ?_⟩
  · intro config st cr
    unfold shouldStopReason
    split
    · next hacc => simp [hacc]
    · next hacc =>
      split
      · simp [hacc]
      · simp [hacc]
  · simp [shouldStopTraining, shouldStopReason, demoConfig, initialTrainingState,
      demoCycleResult]
    norm_num
  · simp [shouldStopTraining, shouldStopReason, demoConfig, initialTrainingState,
      demoCycleResult]
    norm_num

/-- Closed instance of `shouldStop_target_reached`: at threshold 0.90 and
accuracy exactly 0.90 the stop reason is target-reached. -/
theorem shouldStop_target_reached_witness :
    shouldStopReason demoConfig initialTrainingState (demoCycleResult (90/100)) =
      some .target_reached :=
  (shouldStop_target_reached.1 demoConfig initialTrainingState
    (demoCycleResult (90/100))).mpr (by norm_num [demoConfig, demoCycleResult])

/-- C5: on every exit path of `run_full_training` — normal return or a
propagating exception — the `training_active` flag of the resulting
training state is false: the `finally` block clears it before the call
returns or re-raises. -/
theorem runFullTraining_clears_active_flag
    (E S : Type) (env : RunEnv E S) (config : TrainingConfig)
    (max_cycles : Option Nat) (st₀ : TrainingState) :
    ((runFullTraining env config max_cycles st₀).2).training_active = false :=
  rfl

/-- C6: in the concrete scenario (five questions, questions 1 and 3 judged
correct, corrections applied for 2 and 4 but not 5) the cycle executor
returns a `CycleResult` with `questions_processed = 5`,
`correct_answers = 2`, `improvements_made = 2`, accuracy `2/5`, improvement
rate `2/5` and learning efficiency `2/3`, and the Corrector is invoked
exactly on the three incorrectly answered questions 2, 4, 5. -/
theorem scenario_cycle_result :
    executeTrainingCycle (.ok scenarioQuestions) scenarioEnv initialTrainingState =
      .ok ({ cycle_number := 0, questions_processed := 5, correct_answers := 2
           , improvements_made := 2, performance_metrics := calculateMetrics 5 2 2 },
           { initialTrainingState with
             current_cycle := 1, total_questions_processed := 5
           , improvements_detected := 2 }) ∧
    calculateMetrics 5 2 2 =
      { accuracy := 2/5, improvement_rate := 2/5, learning_efficiency := 2/3 } ∧
    processQuestionsCalls scenarioEnv scenarioQuestions 0 0 0 [] =
      .ok (5, 2, 2, [scenarioQuestion 2, scenarioQuestion 4, scenarioQuestion 5]) :=
  ⟨rfl, by simp [calculateMetrics], rfl⟩

/-- C8: a cycle over an empty question batch completes normally with all
counters zero and metrics `0.0` (rather than failing on a division by
zero), whatever the collaborators are. -/
theorem empty_batch_cycle (E : Type) (env : Collaborators E) (st : TrainingState) :
    executeTrainingCycle (.ok []) env st =
      .ok ({ cycle_number := st.current_cycle, questions_processed := 0
           , correct_answers := 0, improvements_made := 0
           , performance_metrics :=
               { accuracy := 0, improvement_rate := 0, learning_efficiency := 0 } },
           { st with current_cycle := st.current_cycle + 1 }) := by
  unfold executeTrainingCycle processQuestions
  simp only
  norm_num [calculateMetrics]

/-- C10: the cycle budget of `run_full_training` is combined by Python
truthiness — an explicit argument of `0` is not honoured as "run zero
cycles": both `None` and `0` fall back to the configured
`training.max_cycles`, and the run with an explicit `0` is identical to
the run with no argument. -/
theorem max_cycles_truthiness :
    (∀ configMax : Nat, resolveMaxCycles (some 0) configMax = configMax) ∧
    (∀ configMax : Nat, resolveMaxCycles none configMax = configMax) ∧
    (∀ (E S : Type) (env : RunEnv E S) (config : TrainingConfig) (st₀ : TrainingState),
      runFullTraining env config (some 0) st₀ = runFullTraining env config none st₀) :=
  ⟨fun _ => rfl, fun _ => rfl, fun _ _ _ _ _ => rfl⟩

/-- C2 counterexample: when the Evaluator call raises while processing the
single question of a batch, `execute_training_cycle` does not catch it and
return a `CycleResult`; the exception propagates out of the cycle. -/
theorem evaluator_failure_aborts_cycle :
    executeTrainingCycle (.ok [scenarioQuestion 1]) failingEnv initialTrainingState =
      .error "API failure" :=
  rfl

/-- The per-question loop only ever increments `correct_answers` together
with `questions_processed`, and increments `improvements_made` only on a
question counted as incorrect, so the counter invariants are preserved. -/
lemma processQuestions_counts {E : Type} (env : Collaborators E) :
    ∀ (qs : List Question) (p c i : Nat) (t : Nat × Nat × Nat),
      processQuestions env qs p c i = .ok t → c ≤ p → i ≤ p - c →
      t.2.1 ≤ t.1 ∧ t.2.2 ≤ t.1 - t.2.1 := by
  intro qs
  induction qs with
  | nil =>
    intro p c i t h hc hi
    simp only [processQuestions, Except.ok.injEq] at h
    subst h
    exact ⟨hc, hi⟩
  | cons q rest ih =>
    intro p c i t h hc hi
    cases hg : env.generate_answer q with
    | error e => simp [processQuestions, hg] at h
    | ok a =>
      cases he : env.evaluate_response q a with
      | error e => simp [processQuestions, hg, he] at h
      | ok ev =>
        by_cases hcor : ev.is_correct = true
        · simp only [processQuestions, hg, he, hcor, if_pos] at h
          exact ih (p + 1) (c + 1) i t h (Nat.succ_le_succ hc) (by omega)
        · cases ha : env.apply_correction q a ev.feedback with
          | error e => simp [processQuestions, hg, he, hcor, ha] at h
          | ok b =>
            cases b with
            | true =>
              simp only [processQuestions, hg, he, hcor, ha, if_neg, if_pos,
                Bool.false_eq_true] at h
              exact ih (p + 1) c (i + 1) t h (Nat.le_succ_of_le hc) (by omega)
            | false =>
              simp only [processQuestions, hg, he, hcor, ha, if_neg,
                Bool.false_eq_true] at h
              exact ih (p + 1) c i t h (Nat.le_succ_of_le hc) (by omega)

/-- Under the counter invariants, all three computed metrics lie in the
unit interval. -/
lemma calculateMetrics_bounds (p c i : Nat) (hc : c ≤ p) (hi : i ≤ p - c) :
    0 ≤ (calculateMetrics p c i).accuracy ∧ (calculateMetrics p c i).accuracy ≤ 1 ∧
    0 ≤ (calculateMetrics p c i).improvement_rate ∧
    (calculateMetrics p c i).improvement_rate ≤ 1 ∧
    0 ≤ (calculateMetrics p c i).learning_efficiency ∧
    (calculateMetrics p c i).learning_efficiency ≤ 1 := by
  have hip : i ≤ p := le_trans hi (Nat.sub_le p c)
  unfold calculateMetrics
  dsimp only
  refine ⟨?_, ?_, ?_, ?_, ?_, ?_⟩
  · split
    · positivity
    · exact le_refl 0
  · split
    · exact div_le_one_of_le₀ (by exact_mod_cast hc) (by positivity)
    · exact zero_le_one
  · split
    · positivity
    · exact le_refl 0
  · split
    · exact div_le_one_of_le₀ (by exact_mod_cast hip) (by positivity)
    · exact zero_le_one
  · positivity
  · refine div_le_one_of_le₀ ?_ (by positivity)
    exact_mod_cast le_trans hi (le_max_right 1 (p - c))

/-- A successful training cycle numbers its result with the entry state's
`current_cycle`, advances `current_cycle` by one, and touches neither the
active flag nor the plateau window. -/
lemma executeTrainingCycle_state {E : Type} (r : Except E (List Question))
    (env : Collaborators E) (st : TrainingState) (cr : CycleResult)
    (st' : TrainingState) (h : executeTrainingCycle r env st = .ok (cr, st')) :
    cr.cycle_number = st.current_cycle ∧
    st'.current_cycle = st.current_cycle + 1 ∧
    st'.training_active = st.training_active ∧
    st'.recent_improvements = st.recent_improvements := by
  unfold executeTrainingCycle at h
  cases r with
  | error e => simp at h
  | ok questions =>
    simp only at h
    cases hp : processQuestions env questions 0 0 0 with
    | error e => rw [hp] at h; simp at h
    | ok t =>
      obtain ⟨p, c, i⟩ := t
      rw [hp] at h
      simp only [Except.ok.injEq, Prod.mk.injEq] at h
      obtain ⟨hcr, hst⟩ := h
      subst hcr
      subst hst
      exact ⟨rfl, rfl, rfl, rfl⟩

/-- No iteration of the cycle loop writes to the plateau window: whatever
state the loop stops in — exhausted budget, flag cleared, stop criterion or
a propagating exception — carries the window it started with. -/
lemma trainingLoop_recent {E S : Type} (env : RunEnv E S) (config : TrainingConfig) :
    ∀ (fuel : Nat) (st : TrainingState) (tr : TrainingResults S),
      ((trainingLoop env config fuel st tr).2).recent_improvements =
        st.recent_improvements := by
  intro fuel
  induction fuel with
  | zero => intro st tr; rfl
  | succ n ih =>
    intro st tr
    unfold trainingLoop
    cases hact : st.training_active with
    | false => simp
    | true =>
      cases hx : executeTrainingCycle (env.generate_questions st.current_cycle)
          env.collab st with
      | error e => simp
      | ok res =>
        obtain ⟨cr, st'⟩ := res
        obtain ⟨-, -, -, hrec⟩ :=
          executeTrainingCycle_state (env.generate_questions st.current_cycle)
            env.collab st cr st' hx
        by_cases hstop : shouldStopTraining config st' cr = true
        · simp [hstop, hrec]
        · simp [hstop, ih, hrec]

/-- The `try` block of `run_full_training` ends — normally or with a
pending exception — in a state whose plateau window is the one it was
entered with. -/
lemma runFullTrainingBody_recent {E S : Type} (env : RunEnv E S)
    (config : TrainingConfig) (maxCycles : Nat) (st₁ : TrainingState) :
    ((runFullTrainingBody env config maxCycles st₁).2).recent_improvements =
      st₁.recent_improvements := by
  unfold runFullTrainingBody
  cases hb : env.run_baseline_evaluation with
  | error e => rfl
  | ok baseline =>
    have hrec := trainingLoop_recent env config maxCycles st₁
      { cycles_completed := 0
      , learning_progression := []
      , baseline_performance := some baseline
      , final_evaluation := none }
    rcases htl : trainingLoop env config maxCycles st₁
        { cycles_completed := 0
        , learning_progression := []
        , baseline_performance := some baseline
        , final_evaluation := none } with ⟨res, st₂⟩
    rw [htl] at hrec
    dsimp only
    rw [htl]
    cases res with
    | error e => simpa using hrec
    | ok tr =>
      dsimp only
      cases env.run_final_evaluation baseline with
      | error e => simpa using hrec
      | ok final_eval =>
        dsimp only
        cases env.save_training_results
            { tr with final_evaluation := some final_eval } with
        | error e => simpa using hrec
        | ok u => simpa using hrec

/-- `List.range'` with the next element appended at the end. -/
lemma range'_snoc (s n : Nat) : List.range' s (n + 1) = List.range' s n ++ [s + n] := by
  have h : List.range' s (n + 1) 1 = List.range' s n 1 ++ [s + 1 * n] :=
    List.range'_concat s n
  simpa using h

/-- The cycle loop extends a learning progression whose cycle numbers form
the contiguous range starting at `b` into a longer progression of the same
shape, keeping `cycles_completed` equal to the progression length. -/
lemma trainingLoop_progression {E S : Type} (env : RunEnv E S) (config : TrainingConfig) :
    ∀ (fuel : Nat) (st : TrainingState) (tr tr' : TrainingResults S)
      (st'' : TrainingState) (b : Nat),
      trainingLoop env config fuel st tr = (.ok tr', st'') →
      tr.learning_progression.map CycleResult.cycle_number =
        List.range' b tr.learning_progression.length →
      b + tr.learning_progression.length = st.current_cycle →
      tr.cycles_completed = tr.learning_progression.length →
      tr'.learning_progression.map CycleResult.cycle_number =
        List.range' b tr'.learning_progression.length ∧
      tr'.cycles_completed = tr'.learning_progression.length := by
  intro fuel
  induction fuel with
  | zero =>
    intro st tr tr' st'' b h hmap hb hcc
    simp only [trainingLoop, Prod.mk.injEq, Except.ok.injEq] at h
    obtain ⟨h1, -⟩ := h
    subst h1
    exact ⟨hmap, hcc⟩
  | succ n ih =>
    intro st tr tr' st'' b h hmap hb hcc
    unfold trainingLoop at h
    cases hact : st.training_active with
    | false =>
      rw [hact, if_pos rfl] at h
      simp only [Prod.mk.injEq, Except.ok.injEq] at h
      obtain ⟨h1, -⟩ := h
      subst h1
      exact ⟨hmap, hcc⟩
    | true =>
      rw [hact, if_neg (by simp)] at h
      cases hx : executeTrainingCycle (env.generate_questions st.current_cycle)
          env.collab st with
      | error e => rw [hx] at h; simp at h
      | ok res =>
        obtain ⟨cr, st'⟩ := res
        rw [hx] at h
        dsimp only at h
        obtain ⟨hnum, hcyc, -, -⟩ :=
          executeTrainingCycle_state (env.generate_questions st.current_cycle)
            env.collab st cr st' hx
        have hmap1 : (tr.learning_progression ++ [cr]).map CycleResult.cycle_number =
            List.range' b (tr.learning_progression ++ [cr]).length := by
          rw [List.map_append, hmap, List.length_append]
          simp only [List.map_cons, List.map_nil, List.length_cons, List.length_nil]
          have hcr : cr.cycle_number = b + tr.learning_progression.length := by omega
          rw [hcr]
          exact (range'_snoc b tr.learning_progression.length).symm
        by_cases hstop : shouldStopTraining config st' cr = true
        · rw [if_pos hstop] at h
          simp only [Prod.mk.injEq, Except.ok.injEq] at h
          obtain ⟨h1, -⟩ := h
          subst h1
          refine ⟨by simpa using hmap1, ?_⟩
          simp [hcc]
        · rw [if_neg hstop] at h
          refine ih st' _ tr' st'' b h (by simpa using hmap1) ?_ ?_
          · simp only [List.length_append, List.length_cons, List.length_nil]
            omega
          · simp [hcc]

/-- When every per-question collaborator call returns normally, the
per-question loop returns normally. -/
lemma processQuestions_total {E : Type} (env : Collaborators E)
    (hga : ∀ q, ∃ a, env.generate_answer q = .ok a)
    (hev : ∀ q a, ∃ ev, env.evaluate_response q a = .ok ev)
    (hap : ∀ q a f, ∃ b, env.apply_correction q a f = .ok b) :
    ∀ (qs : List Question) (p c i : Nat), ∃ t, processQuestions env qs p c i = .ok t := by
  intro qs
  induction qs with
  | nil => intro p c i; exact ⟨(p, c, i), rfl⟩
  | cons q rest ih =>
    intro p c i
    obtain ⟨a, ha⟩ := hga q
    obtain ⟨ev, he⟩ := hev q a
    by_cases hcor : ev.is_correct = true
    · obtain ⟨t, ht⟩ := ih (p + 1) (c + 1) i
      exact ⟨t, by simp [processQuestions, ha, he, hcor, ht]⟩
    · obtain ⟨b, hb⟩ := hap q a ev.feedback
      cases b with
      | false =>
        obtain ⟨t, ht⟩ := ih (p + 1) c i
        exact ⟨t, by simp [processQuestions, ha, he, hcor, hb, ht]⟩
      | true =>
        obtain ⟨t, ht⟩ := ih (p + 1) c (i + 1)
        exact ⟨t, by simp [processQuestions, ha, he, hcor, hb, ht]⟩

/-- C7: every `CycleResult` produced by a successful training cycle
satisfies the counter invariants — the correct answers never exceed the
questions processed, and the improvements never exceed the incorrectly
answered questions — and each of its three derived metrics lies in
`[0, 1]`, whatever the collaborators replied. -/
theorem cycle_result_invariants (E : Type) (r : Except E (List Question))
    (env : Collaborators E) (st : TrainingState) (cr : CycleResult)
    (st' : TrainingState) (h : executeTrainingCycle r env st = .ok (cr, st')) :
    cr.correct_answers ≤ cr.questions_processed ∧
    cr.improvements_made ≤ cr.questions_processed - cr.correct_answers ∧
    0 ≤ cr.performance_metrics.accuracy ∧ cr.performance_metrics.accuracy ≤ 1 ∧
    0 ≤ cr.performance_metrics.improvement_rate ∧
    cr.performance_metrics.improvement_rate ≤ 1 ∧
    0 ≤ cr.performance_metrics.learning_efficiency ∧
    cr.performance_metrics.learning_efficiency ≤ 1 := by
  unfold executeTrainingCycle at h
  cases r with
  | error e => simp at h
  | ok questions =>
    simp only at h
    cases hp : processQuestions env questions 0 0 0 with
    | error e => rw [hp] at h; simp at h
    | ok t =>
      obtain ⟨p, c, i⟩ := t
      rw [hp] at h
      simp only [Except.ok.injEq, Prod.mk.injEq] at h
      obtain ⟨hcr, -⟩ := h
      obtain ⟨hc, hi⟩ :=
        processQuestions_counts env questions 0 0 0 (p, c, i) hp (le_refl 0) (le_refl 0)
      subst hcr
      exact ⟨hc, hi, calculateMetrics_bounds p c i hc hi⟩

/-- Closed instance of `cycle_result_invariants` at the five-question
scenario cycle. -/
theorem cycle_result_invariants_witness :
    scenarioCycleResult.correct_answers ≤ scenarioCycleResult.questions_processed ∧
    scenarioCycleResult.improvements_made ≤
      scenarioCycleResult.questions_processed - scenarioCycleResult.correct_answers ∧
    0 ≤ scenarioCycleResult.performance_metrics.accuracy ∧
    scenarioCycleResult.performance_metrics.accuracy ≤ 1 ∧
    0 ≤ scenarioCycleResult.performance_metrics.improvement_rate ∧
    scenarioCycleResult.performance_metrics.improvement_rate ≤ 1 ∧
    0 ≤ scenarioCycleResult.performance_metrics.learning_efficiency ∧
    scenarioCycleResult.performance_metrics.learning_efficiency ≤ 1 :=
  cycle_result_invariants String (.ok scenarioQuestions) scenarioEnv
    initialTrainingState scenarioCycleResult scenarioEndState rfl

/-- C2 (amended): per-question failure recovery lives inside the
collaborators rather than in the Cycle Executor — the Evaluator converts
its own API failure into a degraded evaluation with `is_correct = false`
and `score = 0.0`, and whenever every collaborator call returns normally
the cycle runs to completion and yields a `CycleResult`; an exception that
does escape a collaborator call is re-raised by `execute_training_cycle`
and aborts the cycle (see `evaluator_failure_aborts_cycle`). -/
theorem collaborator_failure_policy :
    (∀ e : String, (evaluateResponse (.error e)).is_correct = false ∧
      (evaluateResponse (.error e)).score = 0) ∧
    (∀ (E : Type) (env : Collaborators E) (qs : List Question) (st : TrainingState),
      (∀ q, ∃ a, env.generate_answer q = .ok a) →
      (∀ q a, ∃ ev, env.evaluate_response q a = .ok ev) →
      (∀ q a f, ∃ b, env.apply_correction q a f = .ok b) →
      ∃ cr st', executeTrainingCycle (.ok qs) env st = .ok (cr, st')) := by
  constructor
  · intro e
    exact ⟨rfl, rfl⟩
  · intro E env qs st hga hev hap
    obtain ⟨t, ht⟩ := processQuestions_total env hga hev hap qs 0 0 0
    obtain ⟨p, c, i⟩ := t
    refine ⟨{ cycle_number := st.current_cycle, questions_processed := p
            , correct_answers := c, improvements_made := i
            , performance_metrics := calculateMetrics p c i },
            { st with
              current_cycle := st.current_cycle + 1
            , total_questions_processed := st.total_questions_processed + p
            , improvements_detected := st.improvements_detected + i }, ?_⟩
    unfold executeTrainingCycle
    dsimp only
    rw [ht]

/-- Closed instance of `collaborator_failure_policy`: a degraded evaluation
is marked incorrect, and a one-question cycle over collaborators that
return normally completes. -/
theorem collaborator_failure_policy_witness :
    (evaluateResponse (.error "boom")).is_correct = false ∧
    (executeTrainingCycle (.ok [scenarioQuestion 1]) totalEnv
        initialTrainingState).isOk = true := by
  constructor
  · exact (collaborator_failure_policy.1 "boom").1
  · obtain ⟨cr, st', h⟩ :=
      collaborator_failure_policy.2 String totalEnv [scenarioQuestion 1]
        initialTrainingState
        (fun q => ⟨"an answer", rfl⟩)
        (fun q a => ⟨{ is_correct := false, score := 0, feedback := "feedback" }, rfl⟩)
        (fun q a f => ⟨true, rfl⟩)
    rw [h]
    rfl

/-- C1: no code path of the training loop ever writes to the
`recent_improvements` window — a full run returns with exactly the window
it started with (empty, for a fresh orchestrator), and with an empty
window the plateau branch of `_should_stop_training` can never fire when
the configured window size is at least 1.  The check itself does behave as
specified once given a full window: with W = 3, threshold accuracy not yet
reached, window [0.02, 0.005, 0.003] stops for plateau (mean ≈ 0.0093 <
0.01) while [0.05, 0.05, 0.05] does not. -/
theorem plateau_window_never_populated :
    (∀ (E S : Type) (env : RunEnv E S) (config : TrainingConfig)
        (arg : Option Nat) (st₀ : TrainingState),
      ((runFullTraining env config arg st₀).2).recent_improvements =
        st₀.recent_improvements) ∧
    (∀ (config : TrainingConfig) (st : TrainingState) (cr : CycleResult),
      st.recent_improvements = [] → 1 ≤ config.max_plateau_cycles →
      shouldStopReason config st cr ≠ some .plateau) ∧
    shouldStopReason demoConfig (windowState [2/100, 5/1000, 3/1000])
      (demoCycleResult (2/5)) = some .plateau ∧
    shouldStopReason demoConfig (windowState [5/100, 5/100, 5/100])
      (demoCycleResult (2/5)) = none := by
  refine ⟨?_, ?_, ?_, ?_⟩
  · intro E S env config arg st₀
    exact runFullTrainingBody_recent env config
      (resolveMaxCycles arg config.max_cycles) { st₀ with training_active := true }
  · intro config st cr hrec hw
    unfold shouldStopReason
    split
    · simp
    · split
      · next hcond =>
        exfalso
        obtain ⟨h0, -⟩ := hcond
        rw [hrec] at h0
        simp at h0
        omega
      · simp
  · simp [shouldStopReason, demoConfig, windowState, demoCycleResult,
      initialTrainingState]
    norm_num
  · simp [shouldStopReason, demoConfig, windowState, demoCycleResult,
      initialTrainingState]
    norm_num

/-- Closed instance of `plateau_window_never_populated`: a concrete full
run ends with an empty window, and on the fresh (empty-window) state the
stopping check never reports a plateau. -/
theorem plateau_window_never_populated_witness :
    ((runFullTraining demoRunEnv runConfig none
        initialTrainingState).2).recent_improvements = [] ∧
    shouldStopReason runConfig initialTrainingState (demoCycleResult 0) ≠
      some .plateau :=
  ⟨by
    rw [plateau_window_never_populated.1 String Unit demoRunEnv runConfig none
      initialTrainingState]
    rfl,
   plateau_window_never_populated.2.1 runConfig initialTrainingState
    (demoCycleResult 0) rfl (by decide)⟩

/-- C9: over any successful run of the training loop, the cycle numbers of
the learning progression form the contiguous range starting at the initial
state's cycle index (0 for a fresh orchestrator), in insertion order —
strictly increasing by 1 with no gaps — and `cycles_completed` equals the
progression's length. -/
theorem progression_cycle_numbers (E S : Type) (env : RunEnv E S)
    (config : TrainingConfig) (arg : Option Nat) (st₀ : TrainingState)
    (tr : TrainingResults S) (st' : TrainingState)
    (h : runFullTraining env config arg st₀ = (.ok tr, st')) :
    tr.learning_progression.map CycleResult.cycle_number =
      List.range' st₀.current_cycle tr.learning_progression.length ∧
    tr.cycles_completed = tr.learning_progression.length := by
  have hbody : (runFullTrainingBody env config
      (resolveMaxCycles arg config.max_cycles)
      { st₀ with training_active := true }).1 = .ok tr := by
    have hfst := congrArg Prod.fst h
    simpa [runFullTraining] using hfst
  unfold runFullTrainingBody at hbody
  cases hb : env.run_baseline_evaluation with
  | error e => rw [hb] at hbody; simp at hbody
  | ok baseline =>
    rw [hb] at hbody
    dsimp only at hbody
    rcases htl : trainingLoop env config (resolveMaxCycles arg config.max_cycles)
        { st₀ with training_active := true }
        { cycles_completed := 0
        , learning_progression := []
        , baseline_performance := some baseline
        , final_evaluation := none } with ⟨res, st₂⟩
    rw [htl] at hbody
    cases res with
    | error e => simp at hbody
    | ok tr₂ =>
      dsimp only at hbody
      cases hf : env.run_final_evaluation baseline with
      | error e => rw [hf] at hbody; simp at hbody
      | ok final_eval =>
        rw [hf] at hbody
        dsimp only at hbody
        cases hs : env.save_training_results
            { tr₂ with final_evaluation := some final_eval } with
        | error e => rw [hs] at hbody; simp at hbody
        | ok u =>
          rw [hs] at hbody
          simp only [Except.ok.injEq] at hbody
          subst hbody
          obtain ⟨hmap, hcc⟩ := trainingLoop_progression env config
            (resolveMaxCycles arg config.max_cycles)
            { st₀ with training_active := true } _ tr₂ st₂ st₀.current_cycle
            htl rfl rfl rfl
          exact ⟨hmap, hcc⟩

/-- Closed instance of `progression_cycle_numbers`: a two-cycle run over
`demoRunEnv` appends cycle numbers 0 and 1 in order. -/
theorem progression_cycle_numbers_witness :
    demoTrainingResults.learning_progression.map CycleResult.cycle_number =
      List.range' 0 demoTrainingResults.learning_progression.length ∧
    demoTrainingResults.cycles_completed =
      demoTrainingResults.learning_progression.length :=
  progression_cycle_numbers String Unit demoRunEnv runConfig (some 2)
    initialTrainingState demoTrainingResults demoFinalState rfl
